import Mathlib

/-! Shallow embedding of `src/photo_measure.py`: the `DraggableLine` widget
(hit-testing, drag state, change notification) and the measurement
controller (`update_test_readout`, `test_moved`, and the event wiring of
the script body).  Coordinates and pixel positions are modelled as real
numbers; Python float arithmetic is modelled by exact real arithmetic,
except that float division by a zero denominator is modelled explicitly
(numpy float64 scalars return an infinity or NaN rather than raising). -/

namespace PhotoMeasure

/-- A mouse event as delivered by the toolkit: canvas pixel position
`(x, y)`, data-coordinate position `(xdata, ydata)`, whether the pointer
is inside the widget's axes (`event.inaxes` compared against `self.ax`),
and whether `self.canvas.widgetlock.available(self)` holds. -/
structure MouseEvent where
  x : ℝ
  y : ℝ
  xdata : ℝ
  ydata : ℝ
  inaxes : Bool
  lockAvail : Bool

/-- State of a `DraggableLine`: the handle data of the `Line2D`
`self._handles` (index 0 and 2 are the endpoints, index 1 the midpoint),
the grabbed-handle index `self._handle_idx` (`none` means not moving),
and `self._grab_range` in pixels. -/
structure DraggableLine where
  x0 : ℝ
  x1 : ℝ
  x2 : ℝ
  y0 : ℝ
  y1 : ℝ
  y2 : ℝ
  handle_idx : Option (Fin 3)
  grab_range : ℝ

/-- Construction (`DraggableLine.__init__`): handles are placed at
`[x[0], center_x, x[1]]`, `[y[0], center_y, y[1]]` with the center the
mean of the two endpoints; no handle is grabbed. -/
noncomputable def DraggableLine.init (xa xb ya yb g : ℝ) : DraggableLine :=
  { x0 := xa, x1 := (xa + xb) / 2, x2 := xb,
    y0 := ya, y1 := (ya + yb) / 2, y2 := yb,
    handle_idx := none, grab_range := g }

/-- Model of `np.hypot`: the Euclidean norm of the vector `(dx, dy)`. -/
noncomputable def hypot (dx dy : ℝ) : ℝ := Real.sqrt (dx ^ 2 + dy ^ 2)

/-- Model of `np.argmin` on the three-element distance array: the first
index attaining the minimum. -/
noncomputable def argmin3 (d0 d1 d2 : ℝ) : Fin 3 :=
  if d0 ≤ d1 then (if d0 ≤ d2 then 0 else 2)
  else (if d1 ≤ d2 then 1 else 2)

/-- Pixel-space distance from handle `j` to the pointer, as computed in
`DraggableLine._on_press`: the handle data positions are mapped through
the data-to-pixel transform `T` (the model of `self.ax.transData.transform`)
and compared with the event's pixel position by `np.hypot`. -/
noncomputable def DraggableLine.handleDist (T : ℝ × ℝ → ℝ × ℝ)
    (s : DraggableLine) (e : MouseEvent) (j : Fin 3) : ℝ :=
  if j = 0 then hypot ((T (s.x0, s.y0)).1 - e.x) ((T (s.x0, s.y0)).2 - e.y)
  else if j = 1 then hypot ((T (s.x1, s.y1)).1 - e.x) ((T (s.x1, s.y1)).2 - e.y)
  else hypot ((T (s.x2, s.y2)).1 - e.x) ((T (s.x2, s.y2)).2 - e.y)

/-- The index computed by `idx = np.argmin(dist)` in
`DraggableLine._on_press`: the first handle of minimal pixel distance. -/
noncomputable def DraggableLine.nearestHandle (T : ℝ × ℝ → ℝ × ℝ)
    (s : DraggableLine) (e : MouseEvent) : Fin 3 :=
  argmin3 (s.handleDist T e 0) (s.handleDist T e 1) (s.handleDist T e 2)

/-- Press handler `DraggableLine._on_press`: ignores events outside the
axes or when the widget lock is unavailable; otherwise grabs the handle
whose pixel distance to the pointer is the (first) minimum when that
distance is strictly below `self._grab_range`, and clears the grab
otherwise. -/
noncomputable def DraggableLine.on_press (T : ℝ × ℝ → ℝ × ℝ)
    (s : DraggableLine) (e : MouseEvent) : DraggableLine :=
  if e.inaxes = false then s
  else if e.lockAvail = false then s
  else if s.handleDist T e (s.nearestHandle T e) < s.grab_range then
    { s with handle_idx := some (s.nearestHandle T e) }
  else { s with handle_idx := none }

/-- Move handler `DraggableLine._on_move`: ignores events outside the
axes; is a no-op when no handle is grabbed; with the midpoint (index 1)
grabbed, adds `event.xdata - x[1]` to every entry of `x` and
`event.ydata - y[1]` to every entry of `y` (numpy broadcast); with an
endpoint grabbed, sets that entry to the pointer's data position and
recomputes entry 1 as the mean of entries 0 and 2.  Returns the new
state together with the payload of the emitted "line-changed" event,
`((x[0], x[2]), (y[0], y[2]))`, when one is emitted. -/
noncomputable def DraggableLine.on_move (s : DraggableLine) (e : MouseEvent) :
    DraggableLine × Option ((ℝ × ℝ) × (ℝ × ℝ)) :=
  if e.inaxes = false then (s, none)
  else
    match s.handle_idx with
    | none => (s, none)
    | some i =>
      let s' :=
        if i = 1 then
          { s with
            x0 := s.x0 + (e.xdata - s.x1), x1 := s.x1 + (e.xdata - s.x1),
            x2 := s.x2 + (e.xdata - s.x1),
            y0 := s.y0 + (e.ydata - s.y1), y1 := s.y1 + (e.ydata - s.y1),
            y2 := s.y2 + (e.ydata - s.y1) }
        else
          let nx0 := if i = 0 then e.xdata else s.x0
          let nx2 := if i = 2 then e.xdata else s.x2
          let ny0 := if i = 0 then e.ydata else s.y0
          let ny2 := if i = 2 then e.ydata else s.y2
          { s with
            x0 := nx0, x1 := (nx0 + nx2) / 2, x2 := nx2,
            y0 := ny0, y1 := (ny0 + ny2) / 2, y2 := ny2 }
      (s', some ((s'.x0, s'.x2), (s'.y0, s'.y2)))

/-- Release handler `DraggableLine._on_release`: clears the grabbed
handle unconditionally (the event is not inspected at all). -/
def DraggableLine.on_release (s : DraggableLine) (_e : MouseEvent) : DraggableLine :=
  { s with handle_idx := none }

/-- `DraggableLine.get_length`: `((x[2]-x[0])**2 + (y[2]-y[0])**2) ** (1/2)`. -/
noncomputable def DraggableLine.get_length (s : DraggableLine) : ℝ :=
  ((s.x2 - s.x0) ^ 2 + (s.y2 - s.y0) ^ 2) ^ ((1 : ℝ) / 2)

/-- `DraggableLine.get_endpoints`: `([x[0], x[2]], [y[0], y[2]])`. -/
def DraggableLine.get_endpoints (s : DraggableLine) : (ℝ × ℝ) × (ℝ × ℝ) :=
  ((s.x0, s.x2), (s.y0, s.y2))

/-- Content of the test-length readout box.  `num n` models the string
written by the two-decimal format `f"\x7blength:.2f\x7d"` applied to a finite
float: `n` is the value in hundredths (rounded).  `inf`, `ninf` and `nan`
model the strings produced by formatting the non-finite float values that
numpy float64 division by zero returns. -/
inductive Display where
  | num : ℤ → Display
  | inf : Display
  | ninf : Display
  | nan : Display
  deriving DecidableEq

/-- Two-decimal formatting of a finite value: the displayed string shows
`round (100 * v)` hundredths. -/
noncomputable def fmt2 (v : ℝ) : Display := Display.num (round (100 * v))

/-- The controller's recompute `update_test_readout` (with the test
length already supplied, as `test_moved` does, or taken from
`test_line.get_length()` by the caller).  `parse` models the Python
`float` parser applied to the reference text field: `none` models a
`ValueError`, which propagates out of the handler unhandled, modelled
here by the result `none`.  When the parse succeeds the code computes
`float(ref_text.text) * test_length / ref_line.get_length()` on float
scalars: a zero denominator raises nothing and yields an infinity (or
NaN when the numerator is also zero), which is then formatted and
written; otherwise the quotient is formatted to two decimals and
written. -/
noncomputable def update_test_readout (parse : String → Option ℝ)
    (refText : String) (test_length ref_length : ℝ) : Option Display :=
  match parse refText with
  | none => none
  | some v =>
    if ref_length = 0 then
      if v * test_length = 0 then some Display.nan
      else if 0 < v * test_length then some Display.inf
      else some Display.ninf
    else some (fmt2 (v * test_length / ref_length))

/-- The length recomputed by `test_moved` from the payload of a
"line-changed" event: `((x[1]-x[0])**2 + (y[1]-y[0])**2) ** (1/2)`. -/
noncomputable def test_moved_length (ev : (ℝ × ℝ) × (ℝ × ℝ)) : ℝ :=
  ((ev.1.2 - ev.1.1) ^ 2 + (ev.2.2 - ev.2.1) ^ 2) ^ ((1 : ℝ) / 2)

/-- Content of the `measured_box` text field: the hard-coded initial
placeholder `"???"`, or a value written by `measured_box.set_val`. -/
inductive BoxVal where
  | initial : BoxVal
  | written : Display → BoxVal
  deriving DecidableEq

/-- State of the whole script: the two widgets, the reference-length
text field and the test-length readout field. -/
structure AppState where
  ref_line : DraggableLine
  test_line : DraggableLine
  ref_text : String
  measured_box : BoxVal

/-- Events dispatched by the toolkit to the script. -/
inductive AppEvent where
  | press : MouseEvent → AppEvent
  | move : MouseEvent → AppEvent
  | release : MouseEvent → AppEvent
  | editRefText : String → AppEvent

/-- One synchronous event dispatch, following the wiring of the script
body: both `DraggableLine`s are connected to the same canvas events
(`ref_line` was connected first, so its handler runs first); only
`test_line` has an `on_line_changed` observer (`test_moved`), the
reference line's "line-changed" event has no observers; and
`ref_text.on_text_change` calls `update_test_readout()` with the default
argument, i.e. with `test_line.get_length()`.  The returned Boolean
records whether the recompute raised (an unhandled parse failure), in
which case `measured_box` is left unwritten. -/
noncomputable def appStep (parse : String → Option ℝ) (T : ℝ × ℝ → ℝ × ℝ)
    (s : AppState) (ev : AppEvent) : AppState × Bool :=
  match ev with
  | .press e =>
    ({ s with ref_line := s.ref_line.on_press T e,
              test_line := s.test_line.on_press T e }, false)
  | .release e =>
    ({ s with ref_line := s.ref_line.on_release e,
              test_line := s.test_line.on_release e }, false)
  | .move e =>
    let r := s.ref_line.on_move e
    let t := s.test_line.on_move e
    match t.2 with
    | none => ({ s with ref_line := r.1, test_line := t.1 }, false)
    | some emitted =>
      match update_test_readout parse s.ref_text (test_moved_length emitted)
          r.1.get_length with
      | none => ({ s with ref_line := r.1, test_line := t.1 }, true)
      | some d =>
        ({ s with ref_line := r.1, test_line := t.1,
                  measured_box := BoxVal.written d }, false)
  | .editRefText txt =>
    match update_test_readout parse txt s.test_line.get_length
        s.ref_line.get_length with
    | none => ({ s with ref_text := txt }, true)
    | some d =>
      ({ s with ref_text := txt, measured_box := BoxVal.written d }, false)

/-- Initial state of the script: the hand-authored reference segment,
the test segment at `[5, 500], [5, 500]`, the reference-length field
pre-filled with `"26"` and the readout pre-filled with the placeholder. -/
noncomputable def initialApp : AppState :=
  { ref_line := DraggableLine.init 390.21691176470574 388.0611631016043
      592.6617647058823 927.7553475935829 10,
    test_line := DraggableLine.init 5 500 5 500 10,
    ref_text := "26",
    measured_box := BoxVal.initial }

/-- Model of the Python `float` parser restricted to the one literal the
concrete scenarios use: it parses `"26"` (the program's initial
reference-length text, for which `float` returns `26.0`) and treats
every other string as unparsable. -/
def pyFloat26 : String → Option ℝ :=
  fun t => if t = "26" then some 26 else none

/-- Line-level events, for stating the midpoint invariant over arbitrary
mutation sequences. -/
inductive LineEvent where
  | press : (ℝ × ℝ → ℝ × ℝ) → MouseEvent → LineEvent
  | move : MouseEvent → LineEvent
  | release : MouseEvent → LineEvent

/-- One mutation of a `DraggableLine` (the state part of the handlers). -/
noncomputable def lineStep (s : DraggableLine) : LineEvent → DraggableLine
  | .press T e => s.on_press T e
  | .move e => (s.on_move e).1
  | .release e => s.on_release e

/-- The midpoint invariant: handle 1 is the arithmetic mean of handles 0
and 2. -/
def midOk (s : DraggableLine) : Prop :=
  s.x1 = (s.x0 + s.x2) / 2 ∧ s.y1 = (s.y0 + s.y2) / 2

/-- Evaluation helper: the source's `** (1/2)` (modelled as a real power)
is the square root. -/
lemma rpow_half (a : ℝ) : a ^ ((1 : ℝ) / 2) = Real.sqrt a :=
  (Real.sqrt_eq_rpow a).symm

/-- Evaluation helper for square roots of perfect squares. -/
lemma sqrt_eval {a b : ℝ} (hb : 0 ≤ b) (h : a = b ^ 2) : Real.sqrt a = b := by
  rw [h, Real.sqrt_sq hb]

/-- Evaluation of `get_length` at concrete endpoints. -/
lemma get_length_eval (s : DraggableLine) {L : ℝ} (hL : 0 ≤ L)
    (h : (s.x2 - s.x0) ^ 2 + (s.y2 - s.y0) ^ 2 = L ^ 2) : s.get_length = L := by
  rw [DraggableLine.get_length, rpow_half, sqrt_eval hL h]

/-- A move with no grabbed handle is a no-op and emits nothing. -/
lemma on_move_of_none (s : DraggableLine) (h : s.handle_idx = none) (e : MouseEvent) :
    s.on_move e = (s, none) := by
  rw [DraggableLine.on_move, h]
  split <;> rfl

/-- Pressing never changes the handle coordinates. -/
lemma on_press_coords (T : ℝ × ℝ → ℝ × ℝ) (s : DraggableLine) (e : MouseEvent) :
    (s.on_press T e).x0 = s.x0 ∧ (s.on_press T e).x1 = s.x1 ∧
    (s.on_press T e).x2 = s.x2 ∧ (s.on_press T e).y0 = s.y0 ∧
    (s.on_press T e).y1 = s.y1 ∧ (s.on_press T e).y2 = s.y2 := by
  rw [DraggableLine.on_press]
  split
  · exact ⟨rfl, rfl, rfl, rfl, rfl, rfl⟩
  split
  · exact ⟨rfl, rfl, rfl, rfl, rfl, rfl⟩
  split <;> exact ⟨rfl, rfl, rfl, rfl, rfl, rfl⟩

/-- The midpoint invariant holds at construction. -/
lemma midOk_init (xa xb ya yb g : ℝ) : midOk (DraggableLine.init xa xb ya yb g) :=
  ⟨rfl, rfl⟩

/-- The midpoint invariant is preserved by the press handler. -/
lemma midOk_on_press (T : ℝ × ℝ → ℝ × ℝ) (s : DraggableLine) (e : MouseEvent)
    (h : midOk s) : midOk (s.on_press T e) := by
  obtain ⟨c0, c1, c2, d0, d1, d2⟩ := on_press_coords T s e
  exact ⟨by rw [c0, c1, c2]; exact h.1, by rw [d0, d1, d2]; exact h.2⟩

/-- The midpoint invariant is preserved by the move handler. -/
lemma midOk_on_move (s : DraggableLine) (e : MouseEvent) (h : midOk s) :
    midOk (s.on_move e).1 := by
  rw [DraggableLine.on_move]
  split
  · exact h
  cases hidx : s.handle_idx with
  | none => exact h
  | some i =>
    obtain ⟨h1, h2⟩ := h
    fin_cases i
    · exact ⟨rfl, rfl⟩
    · refine ⟨?_, ?_⟩
      · show s.x1 + (e.xdata - s.x1) =
          (s.x0 + (e.xdata - s.x1) + (s.x2 + (e.xdata - s.x1))) / 2
        rw [h1]; ring
      · show s.y1 + (e.ydata - s.y1) =
          (s.y0 + (e.ydata - s.y1) + (s.y2 + (e.ydata - s.y1))) / 2
        rw [h2]; ring
    · exact ⟨rfl, rfl⟩

/-- The midpoint invariant is preserved by the release handler. -/
lemma midOk_on_release (s : DraggableLine) (e : MouseEvent) (h : midOk s) :
    midOk (s.on_release e) := h

/-- The midpoint invariant is preserved by every single mutation. -/
lemma midOk_lineStep (s : DraggableLine) (ev : LineEvent) (h : midOk s) :
    midOk (lineStep s ev) := by
  cases ev with
  | press T e => exact midOk_on_press T s e h
  | move e => exact midOk_on_move s e h
  | release e => exact midOk_on_release s e h

/-- The midpoint invariant is preserved by every mutation sequence. -/
lemma midOk_foldl (evs : List LineEvent) (s : DraggableLine) (h : midOk s) :
    midOk (evs.foldl lineStep s) := by
  induction evs generalizing s with
  | nil => exact h
  | cons ev rest ih => exact ih _ (midOk_lineStep s ev h)

/-- Reduction of the press handler when the event is usable. -/
lemma on_press_inaxes (T : ℝ × ℝ → ℝ × ℝ) (s : DraggableLine) (e : MouseEvent)
    (hax : e.inaxes = true) (hlock : e.lockAvail = true) :
    s.on_press T e =
      if s.handleDist T e (s.nearestHandle T e) < s.grab_range then
        { s with handle_idx := some (s.nearestHandle T e) }
      else { s with handle_idx := none } := by
  rw [DraggableLine.on_press, hax, hlock]
  rfl

/-- Reduction of the move handler with the midpoint grabbed. -/
lemma on_move_mid (s : DraggableLine) (e : MouseEvent)
    (hax : e.inaxes = true) (hidx : s.handle_idx = some 1) :
    s.on_move e =
      ({ s with
         x0 := s.x0 + (e.xdata - s.x1), x1 := s.x1 + (e.xdata - s.x1),
         x2 := s.x2 + (e.xdata - s.x1),
         y0 := s.y0 + (e.ydata - s.y1), y1 := s.y1 + (e.ydata - s.y1),
         y2 := s.y2 + (e.ydata - s.y1) },
       some ((s.x0 + (e.xdata - s.x1), s.x2 + (e.xdata - s.x1)),
         (s.y0 + (e.ydata - s.y1), s.y2 + (e.ydata - s.y1)))) := by
  rw [DraggableLine.on_move, hax, hidx]
  rfl

/-- Reduction of the move handler with endpoint 0 grabbed. -/
lemma on_move_end0 (s : DraggableLine) (e : MouseEvent)
    (hax : e.inaxes = true) (hidx : s.handle_idx = some 0) :
    s.on_move e =
      ({ s with
         x0 := e.xdata, x1 := (e.xdata + s.x2) / 2,
         y0 := e.ydata, y1 := (e.ydata + s.y2) / 2 },
       some ((e.xdata, s.x2), (e.ydata, s.y2))) := by
  rw [DraggableLine.on_move, hax, hidx]
  rfl

/-- Reduction of the move handler with endpoint 1 (index 2) grabbed. -/
lemma on_move_end2 (s : DraggableLine) (e : MouseEvent)
    (hax : e.inaxes = true) (hidx : s.handle_idx = some 2) :
    s.on_move e =
      ({ s with
         x2 := e.xdata, x1 := (s.x0 + e.xdata) / 2,
         y2 := e.ydata, y1 := (s.y0 + e.ydata) / 2 },
       some ((s.x0, e.xdata), (s.y0, e.ydata))) := by
  rw [DraggableLine.on_move, hax, hidx]
  rfl

/-- Case analysis for the first-minimum index of three distances. -/
lemma argmin3_cases (d0 d1 d2 : ℝ) :
    (argmin3 d0 d1 d2 = 0 ∧ d0 ≤ d1 ∧ d0 ≤ d2) ∨
    (argmin3 d0 d1 d2 = 1 ∧ d1 < d0 ∧ d1 ≤ d2) ∨
    (argmin3 d0 d1 d2 = 2 ∧ d2 < d0 ∧ d2 < d1) := by
  rw [argmin3]
  split_ifs with h01 h02 h12
  · exact Or.inl ⟨rfl, h01, h02⟩
  · exact Or.inr (Or.inr ⟨rfl, by linarith, by linarith⟩)
  · exact Or.inr (Or.inl ⟨rfl, by linarith, h12⟩)
  · exact Or.inr (Or.inr ⟨rfl, by linarith, by linarith⟩)

/-- C2: for every segment (any construction arguments) and every sequence
of mutations (construction, presses, endpoint drags, midpoint drags,
releases), the stored midpoint handle equals the arithmetic mean of the
two endpoint handles immediately after each mutation. -/
theorem C2_spec (xa xb ya yb g : ℝ) (evs : List LineEvent) :
    midOk (evs.foldl lineStep (DraggableLine.init xa xb ya yb g)) :=
  midOk_foldl evs _ (midOk_init xa xb ya yb g)

/-- C4: with the midpoint handle grabbed, a move inside the axes drags
the midpoint by delta (dx, dy) = (event.xdata - x[1], event.ydata - y[1])
and translates both endpoints by exactly that delta, and the segment's
length is unchanged by the move. -/
theorem C4_spec (s : DraggableLine) (e : MouseEvent)
    (hax : e.inaxes = true) (hidx : s.handle_idx = some 1) :
    (s.on_move e).1.x1 = s.x1 + (e.xdata - s.x1) ∧
    (s.on_move e).1.y1 = s.y1 + (e.ydata - s.y1) ∧
    (s.on_move e).1.x0 = s.x0 + (e.xdata - s.x1) ∧
    (s.on_move e).1.x2 = s.x2 + (e.xdata - s.x1) ∧
    (s.on_move e).1.y0 = s.y0 + (e.ydata - s.y1) ∧
    (s.on_move e).1.y2 = s.y2 + (e.ydata - s.y1) ∧
    (s.on_move e).1.get_length = s.get_length := by
  rw [on_move_mid s e hax hidx]
  refine ⟨rfl, rfl, rfl, rfl, rfl, rfl, ?_⟩
  simp only [DraggableLine.get_length]
  congr 1
  ring

/-- Fixture for the C4 witness: a midpoint-grabbed segment and an
in-axes move event. -/
noncomputable def lineC4 : DraggableLine :=
  { DraggableLine.init 0 10 0 0 10 with handle_idx := some 1 }

/-- Move event used by the C4 witness. -/
def eventC4 : MouseEvent :=
  { x := 0, y := 0, xdata := 7, ydata := 3, inaxes := true, lockAvail := true }

/-- Witness for C4 at a concrete segment and event. -/
theorem C4_witness :
    (lineC4.on_move eventC4).1.x1 = lineC4.x1 + (eventC4.xdata - lineC4.x1) ∧
    (lineC4.on_move eventC4).1.y1 = lineC4.y1 + (eventC4.ydata - lineC4.y1) ∧
    (lineC4.on_move eventC4).1.x0 = lineC4.x0 + (eventC4.xdata - lineC4.x1) ∧
    (lineC4.on_move eventC4).1.x2 = lineC4.x2 + (eventC4.xdata - lineC4.x1) ∧
    (lineC4.on_move eventC4).1.y0 = lineC4.y0 + (eventC4.ydata - lineC4.y1) ∧
    (lineC4.on_move eventC4).1.y2 = lineC4.y2 + (eventC4.ydata - lineC4.y1) ∧
    (lineC4.on_move eventC4).1.get_length = lineC4.get_length :=
  C4_spec lineC4 eventC4 rfl rfl

/-- C5: with an endpoint handle grabbed, a move inside the axes sets only
that endpoint to the pointer's data position, recomputes the midpoint as
the mean of both endpoints, leaves the other endpoint unchanged, and
emits a "line-changed" event carrying the two endpoints. -/
theorem C5_spec :
    (∀ (s : DraggableLine) (e : MouseEvent), e.inaxes = true →
      s.handle_idx = some 0 →
      (s.on_move e).1.x0 = e.xdata ∧ (s.on_move e).1.y0 = e.ydata ∧
      (s.on_move e).1.x2 = s.x2 ∧ (s.on_move e).1.y2 = s.y2 ∧
      (s.on_move e).1.x1 = ((s.on_move e).1.x0 + (s.on_move e).1.x2) / 2 ∧
      (s.on_move e).1.y1 = ((s.on_move e).1.y0 + (s.on_move e).1.y2) / 2 ∧
      (s.on_move e).2 = some ((s.on_move e).1.get_endpoints)) ∧
    (∀ (s : DraggableLine) (e : MouseEvent), e.inaxes = true →
      s.handle_idx = some 2 →
      (s.on_move e).1.x2 = e.xdata ∧ (s.on_move e).1.y2 = e.ydata ∧
      (s.on_move e).1.x0 = s.x0 ∧ (s.on_move e).1.y0 = s.y0 ∧
      (s.on_move e).1.x1 = ((s.on_move e).1.x0 + (s.on_move e).1.x2) / 2 ∧
      (s.on_move e).1.y1 = ((s.on_move e).1.y0 + (s.on_move e).1.y2) / 2 ∧
      (s.on_move e).2 = some ((s.on_move e).1.get_endpoints)) := by
  constructor
  · intro s e hax hidx
    rw [on_move_end0 s e hax hidx]
    exact ⟨rfl, rfl, rfl, rfl, rfl, rfl, rfl⟩
  · intro s e hax hidx
    rw [on_move_end2 s e hax hidx]
    exact ⟨rfl, rfl, rfl, rfl, rfl, rfl, rfl⟩

/-- Fixture for the C5 witness: a segment with endpoint 0 grabbed. -/
noncomputable def lineC5 : DraggableLine :=
  { DraggableLine.init 0 3 0 4 10 with handle_idx := some 0 }

/-- Move event used by the C5 witness. -/
def eventC5 : MouseEvent :=
  { x := 0, y := 0, xdata := 1, ydata := 2, inaxes := true, lockAvail := true }

/-- Witness for C5 at a concrete segment and event. -/
theorem C5_witness :
    (lineC5.on_move eventC5).1.x0 = eventC5.xdata ∧
    (lineC5.on_move eventC5).1.y0 = eventC5.ydata ∧
    (lineC5.on_move eventC5).1.x2 = lineC5.x2 ∧
    (lineC5.on_move eventC5).1.y2 = lineC5.y2 ∧
    (lineC5.on_move eventC5).1.x1 =
      ((lineC5.on_move eventC5).1.x0 + (lineC5.on_move eventC5).1.x2) / 2 ∧
    (lineC5.on_move eventC5).1.y1 =
      ((lineC5.on_move eventC5).1.y0 + (lineC5.on_move eventC5).1.y2) / 2 ∧
    (lineC5.on_move eventC5).2 = some ((lineC5.on_move eventC5).1.get_endpoints) :=
  C5_spec.1 lineC5 eventC5 rfl rfl

/-- C7: a press inside the axes (lock available) whose pixel distance to
all three handles exceeds the grab range grabs no handle, and any
subsequent move is then a no-op: the state (endpoints and midpoint) is
unchanged and no "line-changed" event is emitted. -/
theorem C7_spec (T : ℝ × ℝ → ℝ × ℝ) (s : DraggableLine) (e : MouseEvent)
    (hax : e.inaxes = true) (hlock : e.lockAvail = true)
    (hfar : ∀ j : Fin 3, s.grab_range < s.handleDist T e j) :
    (s.on_press T e).handle_idx = none ∧
    ∀ e2 : MouseEvent, (s.on_press T e).on_move e2 = (s.on_press T e, none) := by
  have hnone : (s.on_press T e).handle_idx = none := by
    rw [on_press_inaxes T s e hax hlock,
      if_neg (not_lt.2 (le_of_lt (hfar (s.nearestHandle T e))))]
  exact ⟨hnone, fun e2 => on_move_of_none _ hnone e2⟩

/-- Fixture for the C7 witness: a degenerate segment with all three
handles at the origin and grab range 1. -/
noncomputable def lineC7 : DraggableLine := DraggableLine.init 0 0 0 0 1

/-- Press event used by the C7 witness, at pixel distance 5 from every
handle. -/
def eventC7 : MouseEvent :=
  { x := 3, y := 4, xdata := 0, ydata := 0, inaxes := true, lockAvail := true }

/-- Subsequent move event used by the C7 witness. -/
def eventC7b : MouseEvent :=
  { x := 0, y := 0, xdata := 50, ydata := 60, inaxes := true, lockAvail := true }

/-- Every handle of `lineC7` is at pixel distance 5 from `eventC7`. -/
lemma lineC7_dist (j : Fin 3) : lineC7.handleDist id eventC7 j = 5 := by
  fin_cases j <;>
    simp only [DraggableLine.handleDist, lineC7, eventC7, DraggableLine.init,
      hypot, id_eq] <;>
    norm_num <;>
    exact sqrt_eval (by norm_num) (by norm_num)

/-- Witness for C7 at a concrete segment and events. -/
theorem C7_witness :
    (lineC7.on_press id eventC7).handle_idx = none ∧
    (lineC7.on_press id eventC7).on_move eventC7b = (lineC7.on_press id eventC7, none) := by
  have h := C7_spec id lineC7 eventC7 rfl rfl
    (fun j => by
      rw [lineC7_dist j]
      norm_num [lineC7, DraggableLine.init])
  exact ⟨h.1, h.2 eventC7b⟩

/-- C9 (amended): press and move events outside the segment's axes are
ignored entirely (no grab, no state change, no emission), but a release
clears the grabbed-handle state regardless of the event's position. -/
theorem C9_spec :
    (∀ (T : ℝ × ℝ → ℝ × ℝ) (s : DraggableLine) (e : MouseEvent),
      e.inaxes = false → s.on_press T e = s) ∧
    (∀ (s : DraggableLine) (e : MouseEvent),
      e.inaxes = false → s.on_move e = (s, none)) ∧
    (∀ (s : DraggableLine) (e : MouseEvent),
      s.on_release e = { s with handle_idx := none }) := by
  refine ⟨?_, ?_, ?_⟩
  · intro T s e hax
    rw [DraggableLine.on_press, hax]
    rfl
  · intro s e hax
    rw [DraggableLine.on_move, hax]
    rfl
  · intro s e
    rfl

/-- Fixture for C9: a segment whose endpoint 0 is currently grabbed. -/
noncomputable def lineC9 : DraggableLine :=
  { DraggableLine.init 0 2 0 0 10 with handle_idx := some 0 }

/-- Pointer event outside the axes, used for C9. -/
def eventC9 : MouseEvent :=
  { x := 0, y := 0, xdata := 0, ydata := 0, inaxes := false, lockAvail := true }

/-- C9 counterexample: a release outside the axes is not ignored: it
clears the previously grabbed handle, changing the grab state. -/
theorem C9_counterexample :
    eventC9.inaxes = false ∧ lineC9.handle_idx = some 0 ∧
    (lineC9.on_release eventC9).handle_idx = none :=
  ⟨rfl, rfl, rfl⟩

/-- Witness for the amended C9 at a concrete state and event. -/
theorem C9_witness :
    lineC9.on_press id eventC9 = lineC9 ∧
    lineC9.on_move eventC9 = (lineC9, none) ∧
    lineC9.on_release eventC9 = { lineC9 with handle_idx := none } :=
  ⟨C9_spec.1 id lineC9 eventC9 rfl, C9_spec.2.1 lineC9 eventC9 rfl,
   C9_spec.2.2 lineC9 eventC9⟩

/-- C10: the grab-radius comparison is strict: a press (inside the axes,
lock available) whose nearest-handle pixel distance is exactly the grab
range grabs no handle and clears any previously grabbed handle. -/
theorem C10_spec (T : ℝ × ℝ → ℝ × ℝ) (s : DraggableLine) (e : MouseEvent)
    (hax : e.inaxes = true) (hlock : e.lockAvail = true)
    (heq : s.handleDist T e (s.nearestHandle T e) = s.grab_range) :
    (s.on_press T e).handle_idx = none := by
  rw [on_press_inaxes T s e hax hlock, if_neg (by rw [heq]; exact lt_irrefl _)]

/-- Fixture for the C10 witness: all three handles at the origin, grab
range 10, and endpoint 1 previously grabbed. -/
noncomputable def lineC10 : DraggableLine :=
  { DraggableLine.init 0 0 0 0 10 with handle_idx := some 2 }

/-- Press event used by the C10 witness, at pixel distance exactly 10
from every handle. -/
def eventC10 : MouseEvent :=
  { x := 6, y := 8, xdata := 0, ydata := 0, inaxes := true, lockAvail := true }

/-- Every handle of `lineC10` is at pixel distance exactly 10 from
`eventC10`. -/
lemma lineC10_dist (j : Fin 3) : lineC10.handleDist id eventC10 j = 10 := by
  fin_cases j <;>
    simp only [DraggableLine.handleDist, lineC10, eventC10, DraggableLine.init,
      hypot, id_eq] <;>
    norm_num <;>
    exact sqrt_eval (by norm_num) (by norm_num)

/-- Witness for C10: the exactly-at-range press clears the previous grab
and grabs nothing. -/
theorem C10_witness :
    lineC10.handle_idx = some 2 ∧
    (lineC10.on_press id eventC10).handle_idx = none :=
  ⟨rfl, C10_spec id lineC10 eventC10 rfl rfl ((lineC10_dist _).trans rfl)⟩

/-- C6: for every press inside the axes with the widget lock available,
the handler computes the first-minimum handle index: its distance to the
pointer is minimal among the three handles, every handle with a smaller
index is strictly farther (so ties break to the first minimum), and the
press grabs that handle exactly when its distance is strictly within the
grab range, clearing the grab otherwise; the handler is a total
function, so no error is raised in either case. -/
theorem C6_spec (T : ℝ × ℝ → ℝ × ℝ) (s : DraggableLine) (e : MouseEvent)
    (hax : e.inaxes = true) (hlock : e.lockAvail = true) :
    (s.handleDist T e (s.nearestHandle T e) ≤ s.handleDist T e 0 ∧
     s.handleDist T e (s.nearestHandle T e) ≤ s.handleDist T e 1 ∧
     s.handleDist T e (s.nearestHandle T e) ≤ s.handleDist T e 2) ∧
    (s.nearestHandle T e = 1 → s.handleDist T e 1 < s.handleDist T e 0) ∧
    (s.nearestHandle T e = 2 → s.handleDist T e 2 < s.handleDist T e 0 ∧
      s.handleDist T e 2 < s.handleDist T e 1) ∧
    (s.on_press T e).handle_idx =
      if s.handleDist T e (s.nearestHandle T e) < s.grab_range
      then some (s.nearestHandle T e) else none := by
  have hpress : (s.on_press T e).handle_idx =
      if s.handleDist T e (s.nearestHandle T e) < s.grab_range
      then some (s.nearestHandle T e) else none := by
    rw [on_press_inaxes T s e hax hlock]
    split_ifs <;> rfl
  refine ⟨?_, ?_, ?_, hpress⟩
  · rw [DraggableLine.nearestHandle]
    rcases argmin3_cases (s.handleDist T e 0) (s.handleDist T e 1)
        (s.handleDist T e 2) with ⟨hi, ha, hb⟩ | ⟨hi, ha, hb⟩ | ⟨hi, ha, hb⟩ <;>
      rw [hi]
    · exact ⟨le_refl _, ha, hb⟩
    · exact ⟨le_of_lt ha, le_refl _, hb⟩
    · exact ⟨le_of_lt ha, le_of_lt hb, le_refl _⟩
  · rw [DraggableLine.nearestHandle]
    rcases argmin3_cases (s.handleDist T e 0) (s.handleDist T e 1)
        (s.handleDist T e 2) with ⟨hi, ha, hb⟩ | ⟨hi, ha, hb⟩ | ⟨hi, ha, hb⟩ <;>
      rw [hi]
    · intro h
      exact absurd h (by decide)
    · intro _
      exact ha
    · intro h
      exact absurd h (by decide)
  · rw [DraggableLine.nearestHandle]
    rcases argmin3_cases (s.handleDist T e 0) (s.handleDist T e 1)
        (s.handleDist T e 2) with ⟨hi, ha, hb⟩ | ⟨hi, ha, hb⟩ | ⟨hi, ha, hb⟩ <;>
      rw [hi]
    · intro h
      exact absurd h (by decide)
    · intro h
      exact absurd h (by decide)
    · intro _
      exact ⟨ha, hb⟩

/-- Fixture for the C6 witness: handles at (0,0), (50,0), (100,0). -/
noncomputable def lineC6 : DraggableLine := DraggableLine.init 0 100 0 0 10

/-- Press event used by the C6 witness: the pointer exactly on handle 0. -/
def eventC6 : MouseEvent :=
  { x := 0, y := 0, xdata := 0, ydata := 0, inaxes := true, lockAvail := true }

/-- Distance evaluations for the C6 fixture. -/
lemma lineC6_d0 : lineC6.handleDist id eventC6 0 = 0 := by
  simp only [DraggableLine.handleDist, lineC6, eventC6, DraggableLine.init,
    hypot, id_eq]
  norm_num [Real.sqrt_zero]

/-- Distance from the midpoint handle of `lineC6` to `eventC6`. -/
lemma lineC6_d1 : lineC6.handleDist id eventC6 1 = 50 := by
  simp only [DraggableLine.handleDist, lineC6, eventC6, DraggableLine.init,
    hypot, id_eq]
  norm_num
  exact sqrt_eval (by norm_num) (by norm_num)

/-- Distance from handle 2 of `lineC6` to `eventC6`. -/
lemma lineC6_d2 : lineC6.handleDist id eventC6 2 = 100 := by
  simp only [DraggableLine.handleDist, lineC6, eventC6, DraggableLine.init,
    hypot, id_eq]
  norm_num
  exact sqrt_eval (by norm_num) (by norm_num)

/-- The nearest handle of the C6 fixture is handle 0. -/
lemma lineC6_near : lineC6.nearestHandle id eventC6 = 0 := by
  rw [DraggableLine.nearestHandle, lineC6_d0, lineC6_d1, lineC6_d2, argmin3,
    if_pos (by norm_num : (0:ℝ) ≤ 50), if_pos (by norm_num : (0:ℝ) ≤ 100)]

/-- Witness for C6: the press grabs the nearest handle (handle 0, at
distance 0 < 10). -/
theorem C6_witness : (lineC6.on_press id eventC6).handle_idx = some 0 := by
  have h := (C6_spec id lineC6 eventC6 rfl rfl).2.2.2
  rw [h, lineC6_near, lineC6_d0,
    if_pos (by norm_num [lineC6, DraggableLine.init] : (0:ℝ) < lineC6.grab_range)]

/-- Rounding an integer-valued real. -/
lemma round_eval (n : ℤ) (x : ℝ) (h : x = (n : ℝ)) : round x = n := by
  rw [h, round_intCast]

/-- Evaluation of the recompute at a concrete parsed value, nonzero
reference length and integer result in hundredths. -/
lemma update_eval (parse : String → Option ℝ) (t : String) (v tl rl : ℝ) (n : ℤ)
    (hp : parse t = some v) (hrl : rl ≠ 0) (hn : v * tl / rl * 100 = (n : ℝ)) :
    update_test_readout parse t tl rl = some (Display.num n) := by
  simp only [update_test_readout, hp, if_neg hrl, fmt2]
  have hx : (100 : ℝ) * (v * tl / rl) = (n : ℝ) := by rw [← hn]; ring
  rw [hx, round_intCast]

/-- C1: whenever the recompute succeeds (the reference text parses and
the reference length is nonzero), the displayed test length is
referenceLength * testLength / referenceLength formatted to two decimal
places; the test length `test_moved` recomputes from an emitted endpoint
payload equals the segment's Euclidean `get_length`; and in the concrete
scenario (reference segment (0,0)-(0,26), reference length 26, test
segment (0,0)-(0,13)) the computed test length is 13.00, displayed as
1300 hundredths. -/
theorem C1_spec :
    (∀ (parse : String → Option ℝ) (t : String) (v tl rl : ℝ),
      parse t = some v → rl ≠ 0 →
      update_test_readout parse t tl rl = some (fmt2 (v * tl / rl))) ∧
    (∀ s : DraggableLine, test_moved_length s.get_endpoints = s.get_length) ∧
    (∀ parse : String → Option ℝ, parse "26" = some 26 →
      update_test_readout parse "26" (DraggableLine.init 0 0 0 13 10).get_length
        (DraggableLine.init 0 0 0 26 10).get_length = some (Display.num 1300)) := by
  refine ⟨?_, ?_, ?_⟩
  · intro parse t v tl rl hp hrl
    simp only [update_test_readout, hp, if_neg hrl]
  · intro s
    rfl
  · intro parse hp
    have hr : (DraggableLine.init 0 0 0 26 10).get_length = 26 :=
      get_length_eval _ (by norm_num) (by norm_num [DraggableLine.init])
    have ht : (DraggableLine.init 0 0 0 13 10).get_length = 13 :=
      get_length_eval _ (by norm_num) (by norm_num [DraggableLine.init])
    rw [hr, ht]
    exact update_eval parse "26" 26 13 26 1300 hp (by norm_num) (by norm_num)

/-- Witness for C1: the scenario instantiated with the concrete model of
the Python float parser. -/
theorem C1_witness :
    update_test_readout pyFloat26 "26" (DraggableLine.init 0 0 0 13 10).get_length
      (DraggableLine.init 0 0 0 26 10).get_length = some (Display.num 1300) :=
  C1_spec.2.2 pyFloat26 (by simp [pyFloat26])

/-- C8 (amended): the recompute fails — the parse error propagating
unhandled — exactly when the reference-length text does not parse as a
number; a zero reference length does not make it fail (the float
division yields an infinity or NaN that is formatted and written). -/
theorem C8_spec (parse : String → Option ℝ) (t : String) (tl rl : ℝ) :
    update_test_readout parse t tl rl = none ↔ parse t = none := by
  cases hp : parse t with
  | none => simp [update_test_readout, hp]
  | some v =>
    simp only [update_test_readout, hp]
    split_ifs <;> simp

/-- Fixture for the C8 counterexample: a zero-length reference segment. -/
noncomputable def lineC8 : DraggableLine := DraggableLine.init 5 5 5 5 10

/-- C8 counterexample: with the reference text parsing as 26 and a
zero-length reference segment, the recompute does not fail: the float
division yields infinity, which is formatted and written to the
readout. -/
theorem C8_counterexample :
    lineC8.get_length = 0 ∧
    update_test_readout pyFloat26 "26" 13 lineC8.get_length = some Display.inf := by
  have h0 : lineC8.get_length = 0 :=
    get_length_eval _ le_rfl (by norm_num [lineC8, DraggableLine.init])
  refine ⟨h0, ?_⟩
  rw [h0]
  norm_num [update_test_readout, pyFloat26]

/-- C3 (amended): the controller recomputes and rewrites the displayed
test length whenever the TEST segment emits "line-changed" and whenever
the reference-length field is edited (the recomputed value is written on
success); a "line-changed" emission from the REFERENCE segment triggers
no recompute — the script connects no observer to it — so a move to
which only the reference segment reacts leaves the readout untouched. -/
theorem C3_spec :
    (∀ (parse : String → Option ℝ) (T : ℝ × ℝ → ℝ × ℝ) (s : AppState)
        (e : MouseEvent) (ev : (ℝ × ℝ) × (ℝ × ℝ)) (d : Display),
      (s.test_line.on_move e).2 = some ev →
      update_test_readout parse s.ref_text (test_moved_length ev)
        (s.ref_line.on_move e).1.get_length = some d →
      (appStep parse T s (.move e)).1.measured_box = BoxVal.written d) ∧
    (∀ (parse : String → Option ℝ) (T : ℝ × ℝ → ℝ × ℝ) (s : AppState)
        (t : String) (d : Display),
      update_test_readout parse t s.test_line.get_length
        s.ref_line.get_length = some d →
      (appStep parse T s (.editRefText t)).1.measured_box = BoxVal.written d) ∧
    (∀ (parse : String → Option ℝ) (T : ℝ × ℝ → ℝ × ℝ) (s : AppState)
        (e : MouseEvent),
      (s.test_line.on_move e).2 = none →
      (appStep parse T s (.move e)).1.measured_box = s.measured_box) := by
  refine ⟨?_, ?_, ?_⟩
  · intro parse T s e ev d hev hupd
    simp only [appStep, hev, hupd]
  · intro parse T s t d hupd
    simp only [appStep, hupd]
  · intro parse T s e hev
    simp only [appStep, hev]

/-- Fixture for the C3 counterexample: the reference segment's endpoint 0
is grabbed, the test segment is at rest, and the readout still shows the
initial placeholder. -/
noncomputable def appC3 : AppState :=
  { ref_line := { DraggableLine.init 0 0 0 26 10 with handle_idx := some 0 },
    test_line := DraggableLine.init 0 3 0 4 10,
    ref_text := "26",
    measured_box := BoxVal.initial }

/-- Move event used by the C3 counterexample, inside the axes. -/
def eventC3 : MouseEvent :=
  { x := 0, y := 0, xdata := 7, ydata := 7, inaxes := true, lockAvail := true }

/-- C3 counterexample: the move makes the reference segment emit
"line-changed", but the displayed test length is not recomputed or
rewritten — the readout still shows the initial placeholder. -/
theorem C3_counterexample :
    (appC3.ref_line.on_move eventC3).2 ≠ none ∧
    appC3.measured_box = BoxVal.initial ∧
    (appStep pyFloat26 id appC3 (.move eventC3)).1.measured_box =
      BoxVal.initial := by
  refine ⟨?_, rfl, ?_⟩
  · rw [on_move_end0 appC3.ref_line eventC3 rfl rfl]
    simp
  · have htest : appC3.test_line.on_move eventC3 = (appC3.test_line, none) :=
      on_move_of_none _ rfl _
    simp only [appStep, htest]
    rfl

/-- Fixture for the C3 witness: the test segment's endpoint 0 is
grabbed. -/
noncomputable def appC3w : AppState :=
  { ref_line := DraggableLine.init 0 0 0 26 10,
    test_line := { DraggableLine.init 0 3 0 4 10 with handle_idx := some 0 },
    ref_text := "26",
    measured_box := BoxVal.initial }

/-- Move event used by the C3 witness: drags the grabbed test endpoint
to the origin. -/
def eventC3w : MouseEvent :=
  { x := 0, y := 0, xdata := 0, ydata := 0, inaxes := true, lockAvail := true }

/-- Witness for the amended C3: the test-segment move rewrites the
readout with the recomputed value 5.00 (500 hundredths). -/
theorem C3_witness :
    (appStep pyFloat26 id appC3w (.move eventC3w)).1.measured_box =
      BoxVal.written (Display.num 500) := by
  have hev : (appC3w.test_line.on_move eventC3w).2 = some ((0, 3), (0, 4)) := by
    rw [on_move_end0 appC3w.test_line eventC3w rfl rfl]
    norm_num [appC3w, eventC3w, DraggableLine.init]
  have html : test_moved_length ((0, 3), (0, 4)) = 5 := by
    rw [test_moved_length, rpow_half]
    exact sqrt_eval (by norm_num) (by norm_num)
  have hmv : appC3w.ref_line.on_move eventC3w = (appC3w.ref_line, none) :=
    on_move_of_none _ rfl _
  have hlen : appC3w.ref_line.get_length = 26 :=
    get_length_eval _ (by norm_num) (by norm_num [appC3w, DraggableLine.init])
  have hupd : update_test_readout pyFloat26 appC3w.ref_text
      (test_moved_length ((0, 3), (0, 4)))
      (appC3w.ref_line.on_move eventC3w).1.get_length =
      some (Display.num 500) := by
    rw [hmv, html, hlen]
    exact update_eval pyFloat26 "26" 26 5 26 500 (by simp [pyFloat26])
      (by norm_num) (by norm_num)
  exact C3_spec.1 pyFloat26 id appC3w eventC3w ((0, 3), (0, 4))
    (Display.num 500) hev hupd

end PhotoMeasure
